import Mathlib

/-!
Shallow embedding of the Smart Wearable Platform backend (`main.py`,
`schemas.py`) and proofs about its aggregation/join endpoints.

Record types follow `schemas.py`.  Python `int` fields become `Int`,
`float` fields become `Rat` (no arithmetic is ever performed on them:
they are only stored and copied), `datetime` values become `Int`
timestamps (only stored and copied), and `Optional[...]` fields become
`Option ...`.  The free-form location dict `{lat, lng, address}` becomes
the `Location` structure.
-/

namespace SmartWearable

structure Location where
  lat : Rat
  lng : Rat
  address : String
deriving DecidableEq

structure Driver where
  name : String
  employee_id : String
  phone : Option String
  status : String
deriving DecidableEq

structure Device where
  device_id : String
  driver_id : Option String
  driver_name : Option String
  battery : Int
  is_online : Bool
  last_location : Option Location
deriving DecidableEq

structure HealthRecord where
  driver_id : String
  driver_name : String
  device_id : String
  timestamp : Int
  heart_rate : Int
  bp_systolic : Int
  bp_diastolic : Int
  temperature : Rat
  calories : Int
  steps : Int
  duration_minutes : Int
  kilometers : Rat
deriving DecidableEq

/-- Sleep timeline segment; the Python field `end` is a Lean keyword and
is rendered `end_`. -/
structure SleepSegment where
  start : Int
  end_ : Int
  type : String
deriving DecidableEq

structure SleepRecord where
  driver_id : String
  driver_name : String
  device_id : String
  date : String
  score : Int
  duration_minutes : Int
  segments : List SleepSegment
deriving DecidableEq

structure Event where
  driver_id : String
  driver_name : String
  device_id : String
  timestamp : Int
  status_event : String
  location : Option Location
deriving DecidableEq

/-- Modelled from the spec: the Record Store (`database.py`, absent from
the sources; §4.1 of the spec).  One list per collection, in insertion
order: `create(collection, record)` appends, `query(collection)` returns
the whole list, and `query(collection, filter)` with an exact-match
field filter becomes `List.filter` at the call sites below. -/
structure Store where
  driver : List Driver
  device : List Device
  healthrecord : List HealthRecord
  sleeprecord : List SleepRecord
  event : List Event
deriving DecidableEq

def emptyStore : Store :=
  { driver := [], device := [], healthrecord := [], sleeprecord := [], event := [] }

/-! ## Seeding (`seed` in `main.py`)

`seed` reads the clock twice in spirit (`today = datetime.utcnow()` and
its `strftime("%Y-%m-%d")` rendering); both are passed in as the
parameters `now : Int` and `todayStr : String`. -/

def seed (now : Int) (todayStr : String) (s : Store) : Store :=
  let s :=
    if s.driver.length == 0 then
      { s with driver := s.driver ++
          [{ name := "Budi Santoso", employee_id := "DRV001",
             phone := some "081234567890", status := "active" },
           { name := "Siti Aminah", employee_id := "DRV002",
             phone := some "081298765432", status := "active" }] }
    else s
  let s :=
    if s.device.length == 0 then
      { s with device := s.device ++
          [{ device_id := "DEV-1001", driver_id := none, driver_name := some "Budi Santoso",
             battery := 87, is_online := true,
             last_location := some { lat := -6.2, lng := 106.82, address := "Jakarta" } },
           { device_id := "DEV-1002", driver_id := none, driver_name := some "Siti Aminah",
             battery := 22, is_online := false,
             last_location := some { lat := -6.21, lng := 106.85, address := "Jakarta" } }] }
    else s
  let s :=
    if s.healthrecord.length == 0 then
      { s with healthrecord := s.healthrecord ++
          [{ driver_id := "DRV001", driver_name := "Budi Santoso", device_id := "DEV-1001",
             timestamp := now, heart_rate := 78, bp_systolic := 145, bp_diastolic := 95,
             temperature := 36.8, calories := 1200, steps := 9500,
             duration_minutes := 75, kilometers := 6.8 },
           { driver_id := "DRV002", driver_name := "Siti Aminah", device_id := "DEV-1002",
             timestamp := now, heart_rate := 82, bp_systolic := 118, bp_diastolic := 78,
             temperature := 36.6, calories := 980, steps := 7200,
             duration_minutes := 60, kilometers := 4.9 }] }
    else s
  let s :=
    if s.sleeprecord.length == 0 then
      { s with sleeprecord := s.sleeprecord ++
          [{ driver_id := "DRV001", driver_name := "Budi Santoso", device_id := "DEV-1001",
             date := todayStr, score := 58, duration_minutes := 320,
             segments :=
               [{ start := now - 7*3600, end_ := now - (6*3600 + 45*60), type := "light" },
                { start := now - (6*3600 + 45*60), end_ := now - 5*3600, type := "deep" },
                { start := now - 5*3600, end_ := now - (4*3600 + 30*60), type := "rem" },
                { start := now - (4*3600 + 30*60), end_ := now - (4*3600 + 15*60), type := "awake" }] },
           { driver_id := "DRV002", driver_name := "Siti Aminah", device_id := "DEV-1002",
             date := todayStr, score := 82, duration_minutes := 420,
             segments :=
               [{ start := now - 8*3600, end_ := now - 6*3600, type := "deep" },
                { start := now - 6*3600, end_ := now - 5*3600, type := "light" },
                { start := now - 5*3600, end_ := now - 4*3600, type := "rem" }] }] }
    else s
  let s :=
    if s.event.length == 0 then
      { s with event := s.event ++
          [{ driver_id := "DRV001", driver_name := "Budi Santoso", device_id := "DEV-1001",
             timestamp := now, status_event := "Low Battery",
             location := some { lat := -6.2, lng := 106.82, address := "Jakarta" } },
           { driver_id := "DRV002", driver_name := "Siti Aminah", device_id := "DEV-1002",
             timestamp := now, status_event := "SOS",
             location := some { lat := -6.21, lng := 106.85, address := "Jakarta" } }] }
    else s
  s

/-! ## Dashboard summary (`dashboard_summary` in `main.py`)

`datetime.utcnow().strftime("%Y-%m-%d")` is the parameter `today`.  The
`{"date": today}` store filter is the `List.filter` on `sleeprecord`. -/

structure DashboardSummary where
  high_bp_count : Nat
  low_sleep_score_count : Nat
  under_sleep_duration_count : Nat
  online_devices : Nat
  offline_devices : Nat
deriving DecidableEq

def dashboard_summary (s : Store) (today : String)
    (bp_sys_threshold bp_dia_threshold sleep_score_threshold sleep_duration_threshold : Int) :
    DashboardSummary :=
  let health := s.healthrecord
  let sleep := s.sleeprecord.filter (fun r => r.date == today)
  let devices := s.device
  let high_bp := health.filter
    (fun h => h.bp_systolic > bp_sys_threshold || h.bp_diastolic > bp_dia_threshold)
  let low_sleep_score := sleep.filter (fun r => r.score < sleep_score_threshold)
  let under_sleep := sleep.filter (fun r => r.duration_minutes < sleep_duration_threshold)
  let online := devices.filter (fun d => d.is_online)
  let offline := devices.filter (fun d => !d.is_online)
  { high_bp_count := high_bp.length,
    low_sleep_score_count := low_sleep_score.length,
    under_sleep_duration_count := under_sleep.length,
    online_devices := online.length,
    offline_devices := offline.length }

/-! ## Driver readiness (`driver_readiness` in `main.py`) -/

/-- Python dict built by `for s in sleep: sleep_by_driver[s["driver_id"]] = s`
followed by `sleep_by_driver.get(did)`: later records overwrite earlier
ones, so the lookup yields the last matching record. -/
def lastSleepByDriver (sleep : List SleepRecord) (did : String) : Option SleepRecord :=
  sleep.foldl (fun acc srec => if srec.driver_id == did then some srec else acc) none

structure ReadinessRow where
  datetime : Int
  driver_name : String
  device_id : String
  last_sleep_score : Option Int
  last_bp_systolic : Int
  last_bp_diastolic : Int
  status : String
deriving DecidableEq

def readinessRow (sleep : List SleepRecord) (h : HealthRecord) : ReadinessRow :=
  let s := lastSleepByDriver sleep h.driver_id
  let readiness_ok : Bool :=
    h.bp_systolic < 140 && h.bp_diastolic < 90 && ((s.map (fun r => r.score)).getD 100 ≥ 60)
  { datetime := h.timestamp,
    driver_name := h.driver_name,
    device_id := h.device_id,
    last_sleep_score := s.map (fun r => r.score),
    last_bp_systolic := h.bp_systolic,
    last_bp_diastolic := h.bp_diastolic,
    status := if readiness_ok then "approved" else "not approved" }

/-- Case-insensitive substring test, used for Python's
`q.lower() in text.lower()`.  `matchesAt hay need` is true when `need`
is an initial segment of `hay`. -/
def matchesAt : List Char → List Char → Bool
  | _, [] => true
  | [], _ :: _ => false
  | a :: hay, b :: need => a == b && matchesAt hay need

def containsSub (need : List Char) : List Char → Bool
  | [] => matchesAt [] need
  | a :: hay => matchesAt (a :: hay) need || containsSub need hay

def lowerData (s : String) : List Char :=
  s.data.map Char.toLower

def containsCI (hay q : String) : Bool :=
  containsSub (lowerData q) (lowerData hay)

/-- Python `a.lower() == b.lower()`. -/
def lowerEq (a b : String) : Bool :=
  lowerData a == lowerData b

def driver_readiness (s : Store) (q status : Option String) : List ReadinessRow :=
  let rows := s.healthrecord.map (readinessRow s.sleeprecord)
  let rows :=
    match q with
    | some qs => if qs = "" then rows else rows.filter (fun r => containsCI r.driver_name qs)
    | none => rows
  let rows :=
    match status with
    | some st =>
        if st = "" then rows else rows.filter (fun r => lowerEq r.status st)
    | none => rows
  rows

/-! ## Event table (`events_table` in `main.py`) -/

structure EventRow where
  datetime : Int
  driver_name : String
  device_id : String
  status_event : String
  address : Option String
deriving DecidableEq

def events_table (s : Store) (q status_event : Option String) : List EventRow :=
  let rows := s.event.map (fun e =>
    { datetime := e.timestamp,
      driver_name := e.driver_name,
      device_id := e.device_id,
      status_event := e.status_event,
      address := e.location.map (fun l => l.address) : EventRow })
  let rows :=
    match q with
    | some qs => if qs = "" then rows else rows.filter (fun r => containsCI r.driver_name qs)
    | none => rows
  let rows :=
    match status_event with
    | some sev =>
        if sev = "" then rows
        else rows.filter (fun r => lowerEq r.status_event sev)
    | none => rows
  rows

/-! ## Map points (`map_points` in `main.py`) -/

/-- Python dict built by `for e in events: latest_event_by_device[e["device_id"]] = e`:
later events overwrite earlier ones for the same device id. -/
def lastEventByDevice (events : List Event) (did : String) : Option Event :=
  events.foldl (fun acc e => if e.device_id == did then some e else acc) none

structure MapPoint where
  device_id : String
  driver_name : Option String
  battery : Int
  event : Option String
  address : Option String
  lat : Option Rat
  lng : Option Rat
deriving DecidableEq

/-- The source also fetches all health records and builds
`health_by_device`, but no field of it reaches the output, so the
binding is dropped here. -/
def map_points (s : Store) : List MapPoint :=
  s.device.map (fun d =>
    let loc := d.last_location
    let ev := lastEventByDevice s.event d.device_id
    { device_id := d.device_id,
      driver_name := d.driver_name,
      battery := d.battery,
      event := ev.map (fun e => e.status_event),
      address := loc.map (fun l => l.address),
      lat := loc.map (fun l => l.lat),
      lng := loc.map (fun l => l.lng) })

/-! ## Device listing and detail (`devices_list`, `device_detail` in `main.py`)

`devices_list` mutates each returned document by adding a 1-based `no`
field; the result rows are rendered as pairs `(no, device)`. -/

def devices_list (s : Store) (q : Option String) : List (Nat × Device) :=
  let devices :=
    match q with
    | some qs =>
        if qs = "" then s.device
        else s.device.filter
          (fun d => containsCI (d.device_id ++ " " ++ (d.driver_name.getD "")) qs)
    | none => s.device
  devices.enum.map (fun p => (p.1 + 1, p.2))

structure DeviceDetail where
  device : Device
  health : Option HealthRecord
  sleep : List SleepRecord
  events : List Event
deriving DecidableEq

/-- The 404 (`HTTPException`) branch is rendered as `none`. -/
def device_detail (s : Store) (device_id : String) : Option DeviceDetail :=
  let devices := s.device.filter (fun d => d.device_id == device_id)
  match devices with
  | [] => none
  | device :: _ =>
      let health := (s.healthrecord.filter (fun h => h.device_id == device_id)).head?
      let sleep_today := s.sleeprecord.filter (fun r => r.device_id == device_id)
      let events := s.event.filter (fun e => e.device_id == device_id)
      some { device := device, health := health, sleep := sleep_today, events := events }

/-! ## ECG waveform (`device_ecg` in `main.py`)

Python floating point `math.sin` is idealised as real-valued `Real.sin`;
`int(...)` is Python truncation toward zero (`pyInt`). -/

noncomputable def pyInt (x : ℝ) : ℤ := if 0 ≤ x then ⌊x⌋ else ⌈x⌉

noncomputable def device_ecg (_device_id : String) : List ℤ :=
  (List.range 60).map (fun i : Nat =>
    pyInt (50 + 30 * Real.sin ((i : ℝ) / 6.0) + 10 * Real.sin ((i : ℝ) / 1.3)))

/-! ## Concrete fixtures used by witnesses and counterexamples -/

def hrA : HealthRecord :=
  { driver_id := "DA", driver_name := "Alice Smith", device_id := "D1", timestamp := 0,
    heart_rate := 70, bp_systolic := 120, bp_diastolic := 80, temperature := 36.5,
    calories := 500, steps := 1000, duration_minutes := 30, kilometers := 1 }

def srA : SleepRecord :=
  { driver_id := "DA", driver_name := "Alice Smith", device_id := "D1",
    date := "2024-01-01", score := 70, duration_minutes := 400, segments := [] }

def evA : Event :=
  { driver_id := "DA", driver_name := "Alice Smith", device_id := "D1", timestamp := 0,
    status_event := "SOS", location := some { lat := 1, lng := 2, address := "X" } }

def devA : Device :=
  { device_id := "D1", driver_id := some "DA", driver_name := some "Alice Smith",
    battery := 50, is_online := true,
    last_location := some { lat := 1, lng := 2, address := "X" } }

def storeA : Store :=
  { driver := [], device := [devA], healthrecord := [hrA], sleeprecord := [srA],
    event := [evA] }

/-- A store with a health record whose driver has no sleep record. -/
def storeB : Store :=
  { driver := [], device := [], healthrecord := [hrA], sleeprecord := [], event := [] }

def deviceDetailA : DeviceDetail :=
  { device := devA, health := some hrA, sleep := [srA], events := [evA] }

/-- The single readiness row produced for "Budi Santoso" on the seeded
data (BP 145/95, sleep score 58): not approved. -/
def budiRow : ReadinessRow :=
  { datetime := 0, driver_name := "Budi Santoso", device_id := "DEV-1001",
    last_sleep_score := some 58, last_bp_systolic := 145, last_bp_diastolic := 95,
    status := "not approved" }

/-- A device on which the plain concatenation of `device_id` and
`driver_name` differs observably from the space-joined text the code
actually filters on. -/
def cexDevice : Device :=
  { device_id := "AB", driver_id := none, driver_name := some "CD", battery := 100,
    is_online := true, last_location := none }

def cexStore : Store :=
  { driver := [], device := [cexDevice], healthrecord := [], sleeprecord := [], event := [] }

/-! ## Helper lemmas -/

/-- Folding dict-style overwrite over a list and then looking up yields
the last matching element (or the initial value when none matches). -/
theorem foldl_overwrite {α : Type} (p : α → Bool) (l : List α) (init : Option α) :
    l.foldl (fun acc x => if p x then some x else acc) init
      = ((l.filter p).getLast?).or init := by
  induction l using List.reverseRecOn with
  | nil => rfl
  | append_singleton l a ih =>
      rw [List.foldl_append, List.filter_append]
      by_cases hp : p a
      · simp [hp, List.getLast?_concat]
      · simp [hp, ih]

theorem lastSleepByDriver_eq (sleep : List SleepRecord) (did : String) :
    lastSleepByDriver sleep did
      = (sleep.filter (fun r => r.driver_id == did)).getLast? := by
  rw [lastSleepByDriver, foldl_overwrite, Option.or_none]

theorem lastEventByDevice_eq (events : List Event) (did : String) :
    lastEventByDevice events did
      = (events.filter (fun e => e.device_id == did)).getLast? := by
  rw [lastEventByDevice, foldl_overwrite, Option.or_none]

theorem matchesAt_iff (need : List Char) :
    ∀ hay : List Char, matchesAt hay need = true ↔ ∃ t, hay = need ++ t := by
  induction need with
  | nil =>
      intro hay
      simp [matchesAt]
  | cons b bs ih =>
      intro hay
      cases hay with
      | nil => simp [matchesAt]
      | cons a as => simp [matchesAt, ih as]

theorem containsSub_iff (need : List Char) :
    ∀ hay : List Char, containsSub need hay = true ↔ ∃ l₁ l₂, hay = l₁ ++ need ++ l₂ := by
  intro hay
  induction hay with
  | nil =>
      rw [containsSub, matchesAt_iff]
      constructor
      · rintro ⟨t, ht⟩
        exact ⟨[], t, by simpa using ht⟩
      · rintro ⟨l₁, l₂, h⟩
        obtain ⟨h1, h2⟩ := List.append_eq_nil.mp h.symm
        obtain ⟨h3, h4⟩ := List.append_eq_nil.mp h1
        exact ⟨[], by simp [h4]⟩
  | cons a hay ih =>
      rw [containsSub]
      simp only [Bool.or_eq_true, matchesAt_iff, ih]
      constructor
      · rintro (⟨t, ht⟩ | ⟨l₁, l₂, h⟩)
        · exact ⟨[], t, by simpa using ht⟩
        · exact ⟨a :: l₁, l₂, by simp [h]⟩
      · rintro ⟨l₁, l₂, h⟩
        cases l₁ with
        | nil => exact Or.inl ⟨l₂, by simpa using h⟩
        | cons x l₁ =>
            simp only [List.cons_append, List.cons.injEq] at h
            exact Or.inr ⟨l₁, l₂, h.2⟩

/-- The executable case-insensitive substring test agrees with the
declarative "occurs as a contiguous substring" reading. -/
theorem containsCI_iff (hay q : String) :
    containsCI hay q = true ↔
      ∃ l₁ l₂, lowerData hay = l₁ ++ lowerData q ++ l₂ := by
  rw [containsCI, containsSub_iff]

theorem ite_approved_iff (b : Bool) :
    (if b then "approved" else "not approved") = "approved" ↔ b = true := by
  cases b <;> simp

theorem readinessRow_status (sleep : List SleepRecord) (h : HealthRecord) :
    ((readinessRow sleep h).status = "approved") ↔
      (h.bp_systolic < 140 ∧ h.bp_diastolic < 90 ∧
        ((lastSleepByDriver sleep h.driver_id).map (fun r => r.score)).getD 100 ≥ 60) := by
  simp [readinessRow, ite_approved_iff, and_assoc]

theorem numbered_one_based (l : List Device) (i : Nat) (row : Nat × Device)
    (h : (l.enum.map (fun p => (p.1 + 1, p.2)))[i]? = some row) : row.1 = i + 1 := by
  rw [List.getElem?_map, List.getElem?_enum] at h
  rcases hl : l[i]? with _ | a
  · rw [hl] at h; cases h
  · rw [hl] at h
    simp only [Option.map_some'] at h
    rw [← Option.some.inj h]

/-! ## Claim theorems -/

/-- C2: for every store state and thresholds, `dashboard_summary` returns
`high_bp_count` equal to the number of health records with
`bp_systolic > bp_sys_threshold` or `bp_diastolic > bp_dia_threshold`;
`low_sleep_score_count` and `under_sleep_duration_count` counted
independently over only the sleep records whose date equals the current
UTC date string; and `online_devices`/`offline_devices` as the counts of
devices with `is_online` true versus false. -/
theorem dashboard_summary_counts (s : Store) (today : String)
    (bp_sys_threshold bp_dia_threshold sleep_score_threshold sleep_duration_threshold : Int) :
    dashboard_summary s today
        bp_sys_threshold bp_dia_threshold sleep_score_threshold sleep_duration_threshold =
      { high_bp_count := s.healthrecord.countP
          (fun h => h.bp_systolic > bp_sys_threshold || h.bp_diastolic > bp_dia_threshold),
        low_sleep_score_count := (s.sleeprecord.filter (fun r => r.date == today)).countP
          (fun r => r.score < sleep_score_threshold),
        under_sleep_duration_count := (s.sleeprecord.filter (fun r => r.date == today)).countP
          (fun r => r.duration_minutes < sleep_duration_threshold),
        online_devices := s.device.countP (fun d => d.is_online),
        offline_devices := s.device.countP (fun d => !d.is_online) } := by
  simp [dashboard_summary, List.countP_eq_length_filter]

/-- C3: seeding is idempotent: from the empty store, running `seed` twice
(at possibly different clock readings) leaves exactly the store of a
single run, and each of the five seeded collections ends with exactly
2 records. -/
theorem seed_idempotent (now1 now2 : Int) (t1 t2 : String) :
    seed now2 t2 (seed now1 t1 emptyStore) = seed now1 t1 emptyStore ∧
    (seed now1 t1 emptyStore).driver.length = 2 ∧
    (seed now1 t1 emptyStore).device.length = 2 ∧
    (seed now1 t1 emptyStore).healthrecord.length = 2 ∧
    (seed now1 t1 emptyStore).sleeprecord.length = 2 ∧
    (seed now1 t1 emptyStore).event.length = 2 := by
  refine ⟨?_, ?_, ?_, ?_, ?_, ?_⟩ <;> simp [seed, emptyStore]

/-- C10: for `driver_readiness`, `events_table` and `devices_list`,
passing a filter parameter as the empty string behaves identically to
omitting it (the parameter is tested for truthiness, and `""` is
falsy). -/
theorem empty_string_filters_noop (s : Store) (a b : Option String) :
    driver_readiness s (some "") a = driver_readiness s none a ∧
    driver_readiness s b (some "") = driver_readiness s b none ∧
    events_table s (some "") a = events_table s none a ∧
    events_table s b (some "") = events_table s b none ∧
    devices_list s (some "") = devices_list s none :=
  ⟨rfl, rfl, rfl, rfl, rfl⟩

/-- C1: for every store state, unfiltered `driver_readiness` returns one
row per health record, and a row's status is "approved" exactly when the
record's `bp_systolic < 140`, `bp_diastolic < 90` and the sleep score is
`≥ 60`, where the sleep record used for a `driver_id` is the LAST one
encountered when iterating the full sleep collection; the thresholds
140/90/60 are literals, and `driver_readiness` takes no threshold
parameters at all, so they are independent of the summary query
parameters. -/
theorem driver_readiness_approved_iff (s : Store) :
    (driver_readiness s none none).length = s.healthrecord.length ∧
    ∀ (i : Nat) (h : HealthRecord) (srec : SleepRecord) (row : ReadinessRow),
      s.healthrecord[i]? = some h →
      (s.sleeprecord.filter (fun r => r.driver_id == h.driver_id)).getLast? = some srec →
      (driver_readiness s none none)[i]? = some row →
      (row.status = "approved" ↔
        (h.bp_systolic < 140 ∧ h.bp_diastolic < 90 ∧ srec.score ≥ 60)) := by
  constructor
  · simp [driver_readiness]
  · intro i h srec row hh hs hrow
    have hmap : (driver_readiness s none none)[i]?
        = (s.healthrecord[i]?).map (readinessRow s.sleeprecord) := by
      simp [driver_readiness]
    rw [hmap, hh, Option.map_some'] at hrow
    have hrow' : row = readinessRow s.sleeprecord h := (Option.some.inj hrow).symm
    have hlast : lastSleepByDriver s.sleeprecord h.driver_id = some srec := by
      rw [lastSleepByDriver_eq]; exact hs
    rw [hrow', readinessRow_status, hlast]
    simp

theorem driver_readiness_approved_iff_witness :
    (driver_readiness storeA none none).length = storeA.healthrecord.length ∧
    ((readinessRow storeA.sleeprecord hrA).status = "approved" ↔
      (hrA.bp_systolic < 140 ∧ hrA.bp_diastolic < 90 ∧ srA.score ≥ 60)) :=
  ⟨(driver_readiness_approved_iff storeA).1,
   (driver_readiness_approved_iff storeA).2 0 hrA srA (readinessRow storeA.sleeprecord hrA)
     (by rfl) (by decide) (by rfl)⟩

/-- C9: in `driver_readiness`, a health record whose `driver_id` has no
sleep record is evaluated with a default sleep score of 100, so the sleep
condition passes: such a driver is "approved" whenever
`bp_systolic < 140` and `bp_diastolic < 90`, and the row's
`last_sleep_score` is null. -/
theorem driver_readiness_missing_sleep (s : Store) (i : Nat) (h : HealthRecord)
    (hh : s.healthrecord[i]? = some h)
    (hns : ∀ r ∈ s.sleeprecord, r.driver_id ≠ h.driver_id) :
    ∃ row, (driver_readiness s none none)[i]? = some row ∧
      row.last_sleep_score = none ∧
      (row.status = "approved" ↔ (h.bp_systolic < 140 ∧ h.bp_diastolic < 90)) := by
  have hfilter : s.sleeprecord.filter (fun r => r.driver_id == h.driver_id) = [] := by
    rw [List.filter_eq_nil_iff]
    intro r hr
    simpa using hns r hr
  have hlast : lastSleepByDriver s.sleeprecord h.driver_id = none := by
    rw [lastSleepByDriver_eq, hfilter]; rfl
  refine ⟨readinessRow s.sleeprecord h, ?_, ?_, ?_⟩
  · simp [driver_readiness, hh]
  · simp [readinessRow, hlast]
  · rw [readinessRow_status, hlast]
    simp

theorem driver_readiness_missing_sleep_witness :
    ∃ row, (driver_readiness storeB none none)[0]? = some row ∧
      row.last_sleep_score = none ∧
      (row.status = "approved" ↔ (hrA.bp_systolic < 140 ∧ hrA.bp_diastolic < 90)) :=
  driver_readiness_missing_sleep storeB 0 hrA (by rfl) (by simp [storeB])

/-- C4: `map_points` returns one point per device, in device order; each
point's `event` field is the `status_event` of the LAST event (in store
iteration order) sharing the device's `device_id`, or null when none
exists, and `address`/`lat`/`lng` are the matching fields of the
device's `last_location` (null when `last_location` is null). -/
theorem map_points_per_device (s : Store) :
    (map_points s).length = s.device.length ∧
    ∀ (i : Nat) (d : Device), s.device[i]? = some d →
      (map_points s)[i]? = some
        { device_id := d.device_id,
          driver_name := d.driver_name,
          battery := d.battery,
          event := ((s.event.filter (fun e => e.device_id == d.device_id)).getLast?).map
            (fun e => e.status_event),
          address := d.last_location.map (fun l => l.address),
          lat := d.last_location.map (fun l => l.lat),
          lng := d.last_location.map (fun l => l.lng) } := by
  constructor
  · simp [map_points]
  · intro i d hd
    simp [map_points, hd, lastEventByDevice_eq]

theorem map_points_per_device_witness :
    (map_points storeA).length = storeA.device.length ∧
    (map_points storeA)[0]? = some
      { device_id := devA.device_id,
        driver_name := devA.driver_name,
        battery := devA.battery,
        event := ((storeA.event.filter (fun e => e.device_id == devA.device_id)).getLast?).map
          (fun e => e.status_event),
        address := devA.last_location.map (fun l => l.address),
        lat := devA.last_location.map (fun l => l.lat),
        lng := devA.last_location.map (fun l => l.lng) } :=
  ⟨(map_points_per_device storeA).1, (map_points_per_device storeA).2 0 devA (by rfl)⟩

/-- C6: for every `device_id` input (including unknown ids — nothing is
validated), `device_ecg` returns exactly 60 samples, sample `i` equals
`floor(50 + 30*sin(i/6.0) + 10*sin(i/1.3))` for every `i` in `0..59`
(Python `int()` truncates toward zero, which coincides with `floor` here
because the waveform is bounded below by 10 > 0), and the waveform does
not depend on the `device_id` or on any stored data. -/
theorem device_ecg_waveform (device_id : String) :
    (device_ecg device_id).length = 60 ∧
    device_ecg device_id
      = (List.range 60).map (fun i : Nat =>
          ⌊(50 + 30 * Real.sin ((i : ℝ) / 6.0) + 10 * Real.sin ((i : ℝ) / 1.3) : ℝ)⌋) ∧
    ∀ other_id : String, device_ecg device_id = device_ecg other_id := by
  have key : ∀ i : ℕ,
      pyInt (50 + 30 * Real.sin ((i : ℝ) / 6.0) + 10 * Real.sin ((i : ℝ) / 1.3))
        = ⌊(50 + 30 * Real.sin ((i : ℝ) / 6.0) + 10 * Real.sin ((i : ℝ) / 1.3) : ℝ)⌋ := by
    intro i
    have h1 := Real.neg_one_le_sin ((i : ℝ) / 6.0)
    have h2 := Real.neg_one_le_sin ((i : ℝ) / 1.3)
    have hpos : (0 : ℝ) ≤ 50 + 30 * Real.sin ((i : ℝ) / 6.0) + 10 * Real.sin ((i : ℝ) / 1.3) := by
      linarith
    rw [pyInt, if_pos hpos]
  refine ⟨?_, ?_, fun o => rfl⟩
  · rw [device_ecg, List.length_map, List.length_range]
  · rw [device_ecg]
    exact List.map_congr_left (fun i _ => key i)

/-- C5: `device_detail` fails with NotFound (modelled as `none`) exactly
when no device in the store has the requested id; otherwise it returns
the first matching device (whose `device_id` equals the request),
together with the first matching health record (or null), all matching
sleep records and all matching events. -/
theorem device_detail_found_iff (s : Store) (did : String) :
    (device_detail s did = none ↔ ∀ d ∈ s.device, d.device_id ≠ did) ∧
    (∀ r : DeviceDetail, device_detail s did = some r →
      r.device.device_id = did ∧
      r.health = (s.healthrecord.filter (fun h => h.device_id == did)).head? ∧
      r.sleep = s.sleeprecord.filter (fun sr => sr.device_id == did) ∧
      r.events = s.event.filter (fun e => e.device_id == did)) := by
  rcases hfil : s.device.filter (fun d => d.device_id == did) with _ | ⟨d0, rest⟩
  · have hnone : device_detail s did = none := by
      simp only [device_detail, hfil]
    have hall : ∀ d ∈ s.device, d.device_id ≠ did := by
      rw [List.filter_eq_nil_iff] at hfil
      intro d hd
      simpa using hfil d hd
    refine ⟨⟨fun _ => hall, fun _ => hnone⟩, ?_⟩
    intro r hr
    rw [hnone] at hr
    cases hr
  · have hsome : device_detail s did = some
        { device := d0,
          health := (s.healthrecord.filter (fun h => h.device_id == did)).head?,
          sleep := s.sleeprecord.filter (fun sr => sr.device_id == did),
          events := s.event.filter (fun e => e.device_id == did) } := by
      simp only [device_detail, hfil]
    have hd0 : d0 ∈ s.device ∧ d0.device_id == did := by
      have hmem : d0 ∈ s.device.filter (fun d => d.device_id == did) := by
        rw [hfil]; exact List.mem_cons_self d0 rest
      exact ⟨(List.mem_filter.mp hmem).1, (List.mem_filter.mp hmem).2⟩
    have hid : d0.device_id = did := by simpa using hd0.2
    constructor
    · constructor
      · intro habs
        rw [hsome] at habs
        cases habs
      · intro hall
        exact absurd hid (hall d0 hd0.1)
    · intro r hr
      rw [hsome] at hr
      rw [← Option.some.inj hr]
      exact ⟨hid, rfl, rfl, rfl⟩

theorem device_detail_found_iff_witness :
    (device_detail storeB "D1" = none ↔ ∀ d ∈ storeB.device, d.device_id ≠ "D1") ∧
    (deviceDetailA.device.device_id = "D1" ∧
     deviceDetailA.health = (storeA.healthrecord.filter (fun h => h.device_id == "D1")).head? ∧
     deviceDetailA.sleep = storeA.sleeprecord.filter (fun sr => sr.device_id == "D1") ∧
     deviceDetailA.events = storeA.event.filter (fun e => e.device_id == "D1")) :=
  ⟨(device_detail_found_iff storeB "D1").1,
   (device_detail_found_iff storeA "D1").2 deviceDetailA (by rfl)⟩

theorem filter_pair {α : Type} (p q : α → Bool) (l : List α) :
    (l.filter p).filter q = l.filter (fun a => p a && q a) := by
  rw [List.filter_filter]
  exact List.filter_congr (fun a _ => Bool.and_comm (q a) (p a))

/-- C7: `driver_readiness` with both filters present returns exactly the
rows whose `driver_name` contains `q` as a case-insensitive substring
and whose computed status label equals `status` case-insensitively,
preserving the order in which health records were returned by the
store; and on the seeded data q = "budi" returns exactly the one row for
"Budi Santoso". -/
theorem driver_readiness_filter_rows (s : Store) (q st : String)
    (hq : q ≠ "") (hst : st ≠ "") :
    driver_readiness s (some q) (some st)
      = (s.healthrecord.map (readinessRow s.sleeprecord)).filter
          (fun r => containsCI r.driver_name q && lowerEq r.status st) ∧
    driver_readiness (seed 0 "2024-01-01" emptyStore) (some "budi") none = [budiRow] := by
  constructor
  · simp only [driver_readiness, if_neg hq, if_neg hst]
    exact filter_pair _ _ _
  · decide

theorem driver_readiness_filter_rows_witness :
    ("ali" ≠ "") ∧ ("approved" ≠ "") ∧
    (driver_readiness storeA (some "ali") (some "approved")
      = (storeA.healthrecord.map (readinessRow storeA.sleeprecord)).filter
          (fun r => containsCI r.driver_name "ali" && lowerEq r.status "approved")) ∧
    (driver_readiness (seed 0 "2024-01-01" emptyStore) (some "budi") none = [budiRow]) :=
  ⟨by decide, by decide,
   (driver_readiness_filter_rows storeA "ali" "approved" (by decide) (by decide)).1,
   (driver_readiness_filter_rows storeA "ali" "approved" (by decide) (by decide)).2⟩

/-- C8 counterexample: "bc" is a case-insensitive substring of the plain
concatenation "AB" ++ "CD" of the only device's `device_id` and
`driver_name`, yet `devices_list` with q = "bc" returns no rows, because
the code filters on the space-joined text "AB CD". -/
theorem devices_list_plain_concat_cex :
    containsCI (cexDevice.device_id ++ cexDevice.driver_name.getD "") "bc" = true ∧
    devices_list cexStore (some "bc") = [] := by
  exact ⟨by decide, by decide⟩

/-- C8 (amended): `devices_list` returns all devices when q is absent,
and otherwise exactly the devices for which q is a case-insensitive
substring of the concatenation of `device_id`, a single space, and
`driver_name`; each returned row carries a 1-based sequence number
assigned in listing order, recomputed on every call after filtering. -/
theorem devices_list_rows (s : Store) (q : String) (hq : q ≠ "") :
    ((devices_list s none).map (fun r => r.2) = s.device) ∧
    ((devices_list s (some q)).map (fun r => r.2)
      = s.device.filter
          (fun d => containsCI (d.device_id ++ " " ++ (d.driver_name.getD "")) q)) ∧
    (∀ (qo : Option String) (i : Nat) (row : Nat × Device),
      (devices_list s qo)[i]? = some row → row.1 = i + 1) := by
  have hsnd : ∀ l : List Device,
      ((l.enum.map (fun p => (p.1 + 1, p.2))).map (fun r => r.2)) = l := by
    intro l
    rw [List.map_map]
    have hcomp : ((fun r : Nat × Device => r.2) ∘ (fun p : Nat × Device => (p.1 + 1, p.2)))
        = Prod.snd := rfl
    rw [hcomp, List.enum_map_snd]
  refine ⟨?_, ?_, ?_⟩
  · exact hsnd s.device
  · simp only [devices_list, if_neg hq]
    exact hsnd _
  · intro qo i row hrow
    simp only [devices_list] at hrow
    exact numbered_one_based _ i row hrow

theorem devices_list_rows_witness :
    ("d1" ≠ "") ∧
    ((devices_list storeA none).map (fun r => r.2) = storeA.device) ∧
    ((devices_list storeA (some "d1")).map (fun r => r.2)
      = storeA.device.filter
          (fun d => containsCI (d.device_id ++ " " ++ (d.driver_name.getD "")) "d1")) ∧
    ((1, devA) : Nat × Device).1 = 0 + 1 :=
  ⟨by decide,
   (devices_list_rows storeA "d1" (by decide)).1,
   (devices_list_rows storeA "d1" (by decide)).2.1,
   (devices_list_rows storeA "d1" (by decide)).2.2 none 0 (1, devA) (by rfl)⟩

end SmartWearable
